import Mathlib

/-!
Verification development for the crunch remote-build orchestrator
(src/main.rs). The definitions below are a shallow embedding of the
program: pure fragments become Lean functions, subprocess interaction is
modelled by an explicit world of subprocess outcomes, and the control
flow of main becomes the function run, which returns the process
outcome (an exit code or a panic) together with the ordered list of
subprocess invocations that were attempted.
-/

namespace Crunch

/-! ## Decimal rendering

Models the decimal Display formatting that the Rust format! macro
applies to the u64 hash and the u128 nanosecond timestamp. -/

/-- Decimal digit character for a value below ten. -/
def digitChar : Nat → Char
  | 0 => '0'
  | 1 => '1'
  | 2 => '2'
  | 3 => '3'
  | 4 => '4'
  | 5 => '5'
  | 6 => '6'
  | 7 => '7'
  | 8 => '8'
  | _ => '9'

/-- Fuel-driven decimal rendering, most significant digit first. -/
def natDecAux : Nat → Nat → List Char
  | 0, _ => []
  | fuel + 1, n =>
    if n < 10 then [digitChar n]
    else natDecAux fuel (n / 10) ++ [digitChar (n % 10)]

/-- Decimal rendering of a natural number, as produced by Display for
Rust unsigned integers. -/
def natDec (n : Nat) : String :=
  ⟨natDecAux (n + 1) n⟩

/-- Value of a digit string, used to invert natDec. -/
def valChars (l : List Char) : Nat :=
  l.foldl (fun a c => 10 * a + (c.toNat - 48)) 0

/-- Value of a rendered string. -/
def valStr (s : String) : Nat :=
  valChars s.data

/-! ## Directory name of a path

Models Utf8PathBuf::file_name from the camino crate, used on the
workspace root: the final normal component of the path. -/

/-- Split a character list on the slash separator. -/
def splitSlash : List Char → List (List Char)
  | [] => [[]]
  | c :: cs =>
    let r := splitSlash cs
    if c = '/' then [] :: r
    else
      match r with
      | [] => [[c]]
      | h :: t => (c :: h) :: t

/-- Final directory component of a path string, none when the path has
no derivable directory name. Models project_dir.file_name(). -/
def fileName (p : String) : Option String :=
  let comps := (splitSlash p.data).filter (fun c => !(c == [] || c == ['.']))
  match comps.getLast? with
  | none => none
  | some c => if c = ['.', '.'] then none else some ⟨c⟩

/-! ## DefaultHasher

Models std::hash::DefaultHasher as used by uid_from_path: SipHash-1-3
with both keys zero, fed the UTF-8 bytes of the path string followed by
the 0xff terminator byte that Hash for str appends. Machine words are
naturals reduced modulo 2 to the 64. -/

/-- Internal state of the SipHash permutation. -/
structure SipState where
  v0 : Nat
  v1 : Nat
  v2 : Nat
  v3 : Nat

/-- Left rotation of a 64-bit word. -/
def rotl64 (x n : Nat) : Nat :=
  ((x <<< n) ||| (x >>> (64 - n))) % 2 ^ 64

/-- One round of the SipHash permutation. -/
def sipRound (s : SipState) : SipState :=
  let a0 := (s.v0 + s.v1) % 2 ^ 64
  let b1 := rotl64 s.v1 13
  let c1 := b1 ^^^ a0
  let d0 := rotl64 a0 32
  let a2 := (s.v2 + s.v3) % 2 ^ 64
  let b3 := rotl64 s.v3 16
  let c3 := b3 ^^^ a2
  let e0 := (d0 + c3) % 2 ^ 64
  let f3 := rotl64 c3 21
  let g3 := f3 ^^^ e0
  let e2 := (a2 + c1) % 2 ^ 64
  let f1 := rotl64 c1 17
  let g1 := f1 ^^^ e2
  let h2 := rotl64 e2 32
  ⟨e0, g1, h2, g3⟩

/-- Absorb one 64-bit message word with the single compression round of
SipHash-1-3. -/
def processBlock (s : SipState) (m : Nat) : SipState :=
  let s1 : SipState := ⟨s.v0, s.v1, s.v2, s.v3 ^^^ m⟩
  let s2 := sipRound s1
  ⟨s2.v0 ^^^ m, s2.v1, s2.v2, s2.v3⟩

/-- Little-endian value of a byte list. -/
def le64 (bs : List Nat) : Nat :=
  bs.foldr (fun b acc => b + 256 * acc) 0

/-- Split a byte stream into complete 64-bit little-endian words plus
the trailing partial block. -/
def toBlocks : List Nat → List Nat × List Nat
  | b0 :: b1 :: b2 :: b3 :: b4 :: b5 :: b6 :: b7 :: rest =>
    let r := toBlocks rest
    ((le64 [b0, b1, b2, b3, b4, b5, b6, b7] % 2 ^ 64) :: r.1, r.2)
  | tail => ([], tail)

/-- Finalization of SipHash-1-3: absorb the length-tagged final word,
inject the 0xff finalization constant, run three rounds and fold the
state. -/
def sipFinish (s : SipState) (tail : List Nat) (len : Nat) : Nat :=
  let m := (le64 tail + (len % 256) * 2 ^ 56) % 2 ^ 64
  let s1 := processBlock s m
  let s2 : SipState := ⟨s1.v0, s1.v1, s1.v2 ^^^ 0xff, s1.v3⟩
  let s3 := sipRound (sipRound (sipRound s2))
  ((s3.v0 ^^^ s3.v1) ^^^ s3.v2) ^^^ s3.v3

/-- SipHash-1-3 of a byte stream under the given 64-bit keys. -/
def sipHash13 (k0 k1 : Nat) (msg : List Nat) : Nat :=
  let s0 : SipState :=
    ⟨k0 ^^^ 0x736f6d6570736575, k1 ^^^ 0x646f72616e646f6d,
     k0 ^^^ 0x6c7967656e657261, k1 ^^^ 0x7465646279746573⟩
  sipFinish ((toBlocks msg).1.foldl processBlock s0) (toBlocks msg).2 msg.length

/-- UTF-8 encoding of one character. -/
def utf8Bytes (c : Char) : List Nat :=
  let n := c.toNat
  if n < 0x80 then [n]
  else if n < 0x800 then
    [0xC0 ||| (n >>> 6), 0x80 ||| (n &&& 0x3F)]
  else if n < 0x10000 then
    [0xE0 ||| (n >>> 12), 0x80 ||| ((n >>> 6) &&& 0x3F), 0x80 ||| (n &&& 0x3F)]
  else
    [0xF0 ||| (n >>> 18), 0x80 ||| ((n >>> 12) &&& 0x3F),
     0x80 ||| ((n >>> 6) &&& 0x3F), 0x80 ||| (n &&& 0x3F)]

/-- UTF-8 byte stream of a string. -/
def strBytes (s : String) : List Nat :=
  s.data.flatMap utf8Bytes

/-- Model of uid_from_path in src/main.rs: hash the path string with a
fresh DefaultHasher (SipHash-1-3, both keys zero; Hash for str feeds
the UTF-8 bytes and then a single 0xff byte) and take the 64-bit
result. -/
def uid_from_path (path : String) : Nat :=
  sipHash13 0 0 (strBytes path ++ [0xff])

/-! ## Configuration model -/

/-- Model of the RemotePathBehavior value enum. -/
inductive RemotePathBehavior
  | mirror
  | tmp
  | unique
deriving DecidableEq

/-- Model of the parsed Args structure. The clap layer is external; the
fields hold the values main receives. -/
structure Args where
  build_env : String
  exclude : List String
  post_cargo : Option String
  copy_back : List String
  remote_path : RemotePathBehavior
  command : List String

/-- Default value of the exclude flag, from its clap default_value
attribute. -/
def defaultExclude : List String :=
  ["target", ".git"]

/-- Model of the Remote structure. -/
structure Remote where
  name : String
  host : String
  ssh_port : Nat
  temp_dir : String
  env : String

/-- The remote target constructed in main. -/
def theRemote : Remote :=
  ⟨"crunch", "crunch", 22, "~/crunch-builds", "~/.profile"⟩

/-! ## Remote path resolution

Models the match on args.remote_path in main. The now argument is the
nanosecond wall-clock reading observed by the Tmp branch; none models
the panic of the expect call when the project directory has no name. -/

/-- Resolved remote build path for a strategy, project root and
observed nanosecond timestamp. -/
def buildPath (behavior : RemotePathBehavior) (projectDir : String) (now : Nat) :
    Option String :=
  match behavior with
  | .tmp =>
    (fileName projectDir).map
      (fun n => "/tmp/crunch-" ++ n ++ "-" ++ natDec now)
  | .unique =>
    (fileName projectDir).map
      (fun n => "~/crunch-builds/" ++ n ++ "-" ++ natDec (uid_from_path projectDir))
  | .mirror => some projectDir

/-! ## Remote command composition -/

/-- Model of the build_command format string in main. -/
def buildCommand (envScript bp buildEnv : String) (command : List String) : String :=
  "export CC=gcc; export CXX=g++; source " ++ envScript ++ "; cd " ++ bp ++ "; "
    ++ buildEnv ++ " cargo " ++ String.intercalate " " command

/-- Model of the final command passed to ssh: the build command, with
the post-cargo suffix appended when a post-cargo command is present. -/
def composedCommand (envScript bp buildEnv : String) (command : List String)
    (postCargo : Option String) : String :=
  match postCargo with
  | some pc =>
    buildCommand envScript bp buildEnv command
      ++ " && echo Executing post-cargo command && " ++ pc
  | none => buildCommand envScript bp buildEnv command

/-! ## Source transfer invocation -/

/-- Exclusion pattern values passed to rsync, in order: the hardcoded
target pattern, then each entry of the user-visible exclude list. -/
def excludePatterns (userExclude : List String) : List String :=
  "target" :: userExclude

/-- Flag-value argument pairs for a list of exclusion patterns. -/
def excludeArgs (patterns : List String) : List String :=
  patterns.foldr (fun e acc => "--exclude" :: e :: acc) []

/-- Full argument vector of the rsync source-transfer invocation built
in main. -/
def rsyncToArgv (sshPort : Nat) (userExclude : List String)
    (bp pd srv : String) : List String :=
  ["-a", "--delete", "--compress", "-e", "ssh -p " ++ natDec sshPort,
   "--info=progress2", "--exclude", "target"]
    ++ excludeArgs userExclude
    ++ ["--rsync-path", "mkdir -p " ++ bp ++ " && rsync", pd ++ "/", srv ++ ":" ++ bp]

/-! ## Copy-back pair parsing

Models entry.splitn(2, colon) and the filter_map that panics on a
malformed entry. -/

/-- Split a character list at the first colon: the part before it and
the entire remainder after it. -/
def splitFirst : List Char → Option (List Char × List Char)
  | [] => none
  | c :: cs =>
    if c = ':' then some ([], cs)
    else (splitFirst cs).map (fun p => (c :: p.1, p.2))

/-- Parse one copy-back entry into a source and destination pair; none
models the panic branch. -/
def parseEntry (s : String) : Option (String × String) :=
  (splitFirst s.data).map (fun p => (⟨p.1⟩, ⟨p.2⟩))

/-- Parse the copy-back entry list; the error carries the panic
message of the first malformed entry. -/
def parseCopyBack : List String → Except String (List (String × String))
  | [] => .ok []
  | e :: rest =>
    match parseEntry e with
    | some p =>
      match parseCopyBack rest with
      | .ok ps => .ok (p :: ps)
      | .error m => .error m
    | none => .error ("Invalid format for --copy-back entry: " ++ e)

/-! ## Pipeline model

The world records the outcome of each external subprocess: none means
the subprocess could not be launched, some s means it ran and exited
with status s. run follows the statement order of main and returns the
process outcome together with the ordered list of subprocess
invocations that were attempted. The two cargo metadata queries are
summarized by one metadataQuery event whose launch outcome is the
world flag; the workspace root the second query returns is the
projectDir field. -/

/-- Subprocess invocations of the pipeline, in the order main issues
them; rsyncBack carries the position of its copy-back pair. -/
inductive Event
  | metadataQuery
  | rsyncTo
  | sshExec
  | rsyncBack (idx : Nat)
  | cleanup
deriving DecidableEq

/-- Final outcome of the process: a call of exit, or a panic. -/
inductive Outcome
  | exit (code : Int)
  | panic (msg : String)
deriving DecidableEq

/-- Whether an outcome is a panic. -/
def isPanic : Outcome → Bool
  | .panic _ => true
  | .exit _ => false

/-- Outcomes of the external subprocesses for one run. -/
structure World where
  metadataLaunchOk : Bool
  projectDir : String
  now : Nat
  rsyncToResult : Option Nat
  sshResult : Option Nat
  retrResult : Nat → Option Nat
  cleanupResult : Option Nat

/-- Whether one artifact retrieval counts as failed: the transfer tool
could not be invoked, or it exited with a non-zero status. -/
def retrFail : Option Nat → Bool
  | none => true
  | some s => s != 0

/-- Indices of the failing retrievals among n copy-back pairs, in pair
order. Thread interleaving can permute the shared error list of the
program; the model keeps pair order, which preserves membership and
count. -/
def retrievalFailures (n : Nat) (w : World) : List Nat :=
  (List.range n).filter (fun i => retrFail (w.retrResult i))

/-- Whether an event is an artifact-retrieval transfer attempt. -/
def isRetrEvent : Event → Bool
  | .rsyncBack _ => true
  | _ => false

/-- Retrieval stage and the tail of the pipeline: spawn one transfer
per pair, join all of them, exit with the retrieval failure code when
any failed, otherwise run the best-effort cleanup for the tmp strategy
and finish with status zero. -/
def runRetrieval (args : Args) (w : World) (pairs : List (String × String)) :
    Outcome × List Event :=
  let events := [Event.metadataQuery, Event.rsyncTo, Event.sshExec]
    ++ (List.range pairs.length).map Event.rsyncBack
  if retrievalFailures pairs.length w = [] then
    (Outcome.exit 0,
     events ++ (match args.remote_path with | .tmp => [Event.cleanup] | _ => []))
  else
    (Outcome.exit (-6), events)

/-- Pipeline after the copy-back list has parsed: metadata query, path
resolution, source transfer, remote execution, then retrieval. -/
def runAfterParse (args : Args) (w : World) (pairs : List (String × String)) :
    Outcome × List Event :=
  if w.metadataLaunchOk = false then (Outcome.exit (-5), [Event.metadataQuery])
  else
    match buildPath args.remote_path w.projectDir w.now with
    | none => (Outcome.panic "Project dir should always exist", [Event.metadataQuery])
    | some _ =>
      match w.rsyncToResult with
      | none => (Outcome.exit (-4), [Event.metadataQuery, Event.rsyncTo])
      | some _ =>
        match w.sshResult with
        | none =>
          (Outcome.exit (-5), [Event.metadataQuery, Event.rsyncTo, Event.sshExec])
        | some _ => runRetrieval args w pairs

/-- Whole pipeline of main: parse the copy-back list first, then run
the staged pipeline. -/
def run (args : Args) (w : World) : Outcome × List Event :=
  match parseCopyBack args.copy_back with
  | .error m => (Outcome.panic m, [])
  | .ok pairs => runAfterParse args w pairs

/-! ## Concrete fixtures used by witnesses and counterexamples -/

/-- Arguments with every flag at its default and a build subcommand. -/
def argsD : Args :=
  ⟨"RUST_BACKTRACE=1", defaultExclude, none, [], RemotePathBehavior.mirror, ["build"]⟩

/-- Arguments with three copy-back pairs. -/
def argsCB : Args :=
  ⟨"RUST_BACKTRACE=1", defaultExclude, none, ["a:b", "c:d", "e:f"],
   RemotePathBehavior.mirror, ["build"]⟩

/-- Arguments with a malformed copy-back entry. -/
def argsBad : Args :=
  ⟨"RUST_BACKTRACE=1", defaultExclude, none, ["nocolon"],
   RemotePathBehavior.mirror, ["build"]⟩

/-- World in which every subprocess launches and succeeds. -/
def wOk : World :=
  ⟨true, "/home/u/proj", 7, some 0, some 0, fun _ => some 0, some 0⟩

/-- World in which the metadata query cannot be launched. -/
def wMetaFail : World :=
  { wOk with metadataLaunchOk := false }

/-- World in which the source transfer cannot be launched. -/
def wRsyncLaunchFail : World :=
  { wOk with rsyncToResult := none }

/-- World in which the source transfer runs but exits with status 23. -/
def wRsyncStatus23 : World :=
  { wOk with rsyncToResult := some 23 }

/-- World in which the remote shell cannot be launched. -/
def wSshLaunchFail : World :=
  { wOk with sshResult := none }

/-- World in which exactly the second retrieval fails to launch. -/
def wRetrMixed : World :=
  { wOk with retrResult := fun i => if i == 1 then none else some 0 }

/-! ## Helper lemmas -/

theorem string_mk_data (s : String) : String.mk s.data = s := rfl

theorem string_append_cancel_left (s a b : String) (h : s ++ a = s ++ b) : a = b := by
  have hd := congrArg String.data h
  simp only [String.data_append] at hd
  have hl := List.append_cancel_left hd
  calc a = String.mk a.data := rfl
    _ = String.mk b.data := by rw [hl]
    _ = b := rfl

theorem digitChar_toNat {d : Nat} (h : d < 10) : (digitChar d).toNat = 48 + d := by
  interval_cases d <;> rfl

theorem valChars_append_digit (l : List Char) (c : Char) :
    valChars (l ++ [c]) = 10 * valChars l + (c.toNat - 48) := by
  simp [valChars, List.foldl_append]

theorem valChars_natDecAux : ∀ (fuel n : Nat), n < fuel → valChars (natDecAux fuel n) = n := by
  intro fuel
  induction fuel with
  | zero => intro n h; omega
  | succ f ih =>
    intro n h
    simp only [natDecAux]
    split
    · next h10 =>
      have hv : valChars [digitChar n] = 10 * 0 + ((digitChar n).toNat - 48) := rfl
      rw [hv, digitChar_toNat h10]
      omega
    · next h10 =>
      rw [valChars_append_digit, ih (n / 10) (by omega),
        digitChar_toNat (show n % 10 < 10 by omega)]
      omega

theorem valStr_natDec (n : Nat) : valStr (natDec n) = n :=
  valChars_natDecAux (n + 1) n (Nat.lt_succ_self n)

theorem natDec_inj {a b : Nat} (h : natDec a = natDec b) : a = b := by
  have hv := congrArg valStr h
  rwa [valStr_natDec, valStr_natDec] at hv

theorem rotl64_lt (x n : Nat) : rotl64 x n < 2 ^ 64 :=
  Nat.mod_lt _ (by norm_num)

theorem xor_lt_64 {x y : Nat} (hx : x < 2 ^ 64) (hy : y < 2 ^ 64) : x ^^^ y < 2 ^ 64 :=
  Nat.bitwise_lt hx hy

theorem sipRound_lt (s : SipState) :
    (sipRound s).v0 < 2 ^ 64 ∧ (sipRound s).v1 < 2 ^ 64
    ∧ (sipRound s).v2 < 2 ^ 64 ∧ (sipRound s).v3 < 2 ^ 64 := by
  refine ⟨?_, ?_, ?_, ?_⟩ <;> simp only [sipRound] <;>
    first
      | exact Nat.mod_lt _ (by norm_num)
      | exact rotl64_lt _ _
      | exact xor_lt_64 (rotl64_lt _ _) (Nat.mod_lt _ (by norm_num))

theorem sipFinish_lt (s : SipState) (tail : List Nat) (len : Nat) :
    sipFinish s tail len < 2 ^ 64 := by
  simp only [sipFinish]
  exact xor_lt_64 (xor_lt_64 (xor_lt_64 (sipRound_lt _).1 (sipRound_lt _).2.1)
    (sipRound_lt _).2.2.1) (sipRound_lt _).2.2.2

theorem uid_lt (p : String) : uid_from_path p < 2 ^ 64 :=
  sipFinish_lt _ _ _

theorem splitFirst_of_no_colon : ∀ {l : List Char}, (∀ c ∈ l, c ≠ ':') →
    splitFirst l = none := by
  intro l
  induction l with
  | nil => intro _; rfl
  | cons c cs ih =>
    intro h
    have hc : c ≠ ':' := h c (by simp)
    simp [splitFirst, hc, ih (fun d hd => h d (by simp [hd]))]

theorem splitFirst_append : ∀ {xs : List Char} (ys : List Char), (∀ c ∈ xs, c ≠ ':') →
    splitFirst (xs ++ ':' :: ys) = some (xs, ys) := by
  intro xs
  induction xs with
  | nil => intro ys _; simp [splitFirst]
  | cons x xt ih =>
    intro ys h
    have hx : x ≠ ':' := h x (by simp)
    simp [splitFirst, hx, ih ys (fun d hd => h d (by simp [hd]))]

theorem parseCopyBack_error : ∀ {l : List String} {e : String}, e ∈ l → parseEntry e = none →
    ∃ m, parseCopyBack l = Except.error m := by
  intro l
  induction l with
  | nil => intro e he _; exact absurd he (List.not_mem_nil e)
  | cons x xt ih =>
    intro e he hpe
    rcases List.mem_cons.mp he with rfl | hmem
    · exact ⟨"Invalid format for --copy-back entry: " ++ e, by simp [parseCopyBack, hpe]⟩
    · cases hx : parseEntry x with
      | none =>
        exact ⟨"Invalid format for --copy-back entry: " ++ x, by simp [parseCopyBack, hx]⟩
      | some p =>
        obtain ⟨m, hm⟩ := ih hmem hpe
        exact ⟨m, by simp [parseCopyBack, hx, hm]⟩

theorem filter_retr_map (l : List Nat) :
    (l.map Event.rsyncBack).filter isRetrEvent = l.map Event.rsyncBack := by
  induction l with
  | nil => rfl
  | cons a t ih => simp [isRetrEvent, ih]

theorem runRetrieval_events_filter (args : Args) (w : World)
    (pairs : List (String × String)) :
    (runRetrieval args w pairs).2.filter isRetrEvent
      = (List.range pairs.length).map Event.rsyncBack := by
  simp only [runRetrieval]
  split
  · cases args.remote_path <;>
      simp [List.filter_append, isRetrEvent, filter_retr_map]
  · simp [List.filter_append, isRetrEvent, filter_retr_map]

theorem runRetrieval_outcome (args : Args) (w : World)
    (pairs : List (String × String)) :
    (runRetrieval args w pairs).1
      = (if retrievalFailures pairs.length w = [] then Outcome.exit 0
         else Outcome.exit (-6)) := by
  simp only [runRetrieval]
  split <;> rfl

/-! ## Claim theorems -/

/-- C1 counterexample: the four failure stages do not carry pairwise
distinct exit codes. A metadata-query launch failure and a remote
command launch failure both exit with code -5. -/
theorem exit_codes_share_minus_five :
    (run argsD wMetaFail).1 = Outcome.exit (-5)
    ∧ (run argsD wSshLaunchFail).1 = Outcome.exit (-5) := by
  decide

/-- C1 amended: every failure stage exits non-zero and full success
exits zero, and the codes -4 (source transfer), -5 (metadata query and
remote execution, shared) and -6 (retrieval) are the only ones used:
the metadata-query stage and the remote-command stage share -5, so the
four stages are not pairwise distinct. -/
theorem exit_code_table (args : Args) (w : World) (ps : List (String × String))
    (bp : String)
    (hparse : parseCopyBack args.copy_back = Except.ok ps)
    (hbp : buildPath args.remote_path w.projectDir w.now = some bp) :
    (w.metadataLaunchOk = false → (run args w).1 = Outcome.exit (-5))
    ∧ (w.metadataLaunchOk = true → w.rsyncToResult = none →
        (run args w).1 = Outcome.exit (-4))
    ∧ (∀ r, w.metadataLaunchOk = true → w.rsyncToResult = some r →
        w.sshResult = none → (run args w).1 = Outcome.exit (-5))
    ∧ (∀ r s, w.metadataLaunchOk = true → w.rsyncToResult = some r →
        w.sshResult = some s → retrievalFailures ps.length w ≠ [] →
        (run args w).1 = Outcome.exit (-6))
    ∧ (∀ r s, w.metadataLaunchOk = true → w.rsyncToResult = some r →
        w.sshResult = some s → retrievalFailures ps.length w = [] →
        (run args w).1 = Outcome.exit 0)
    ∧ ((-4 : Int) ≠ 0 ∧ (-5 : Int) ≠ 0 ∧ (-6 : Int) ≠ 0
        ∧ (-4 : Int) ≠ -5 ∧ (-4 : Int) ≠ -6 ∧ (-5 : Int) ≠ -6) := by
  refine ⟨?_, ?_, ?_, ?_, ?_, by norm_num⟩
  · intro hm
    simp [run, hparse, runAfterParse, hm]
  · intro hm hr
    simp [run, hparse, runAfterParse, hm, hbp, hr]
  · intro r hm hr hs
    simp [run, hparse, runAfterParse, hm, hbp, hr, hs]
  · intro r s hm hr hs hf
    simp [run, hparse, runAfterParse, hm, hbp, hr, hs, runRetrieval_outcome, hf]
  · intro r s hm hr hs hf
    simp [run, hparse, runAfterParse, hm, hbp, hr, hs, runRetrieval_outcome, hf]

/-- C1 witness: the amended exit-code table evaluated on concrete
worlds for each stage. -/
theorem exit_code_table_witness :
    (run argsD wMetaFail).1 = Outcome.exit (-5)
    ∧ (run argsD wRsyncLaunchFail).1 = Outcome.exit (-4)
    ∧ (run argsD wSshLaunchFail).1 = Outcome.exit (-5)
    ∧ (run argsCB wRetrMixed).1 = Outcome.exit (-6)
    ∧ (run argsD wOk).1 = Outcome.exit 0 := by
  refine ⟨(exit_code_table argsD wMetaFail [] "/home/u/proj" rfl rfl).1 rfl,
    (exit_code_table argsD wRsyncLaunchFail [] "/home/u/proj" rfl rfl).2.1 rfl rfl,
    (exit_code_table argsD wSshLaunchFail [] "/home/u/proj" rfl rfl).2.2.1 0 rfl rfl rfl,
    (exit_code_table argsCB wRetrMixed [("a", "b"), ("c", "d"), ("e", "f")]
      "/home/u/proj" rfl rfl).2.2.2.1 0 0 rfl rfl rfl (by decide),
    (exit_code_table argsD wOk [] "/home/u/proj" rfl rfl).2.2.2.2.1 0 0 rfl rfl rfl rfl⟩

/-- C2 counterexample: the transfer tool exiting with the non-zero
status 23 is not fatal — the pipeline still executes the remote
command and finishes with exit status zero. -/
theorem rsync_status_not_fatal :
    wRsyncStatus23.rsyncToResult = some 23
    ∧ (run argsD wRsyncStatus23).1 = Outcome.exit 0
    ∧ Event.sshExec ∈ (run argsD wRsyncStatus23).2 := by
  decide

/-- C2 amended: in the source-synchronization stage only a
transport/launch error of the transfer subprocess is fatal; it aborts
with exit status -4 before the remote command is attempted. A non-zero
exit status of the transfer tool itself is not inspected and the
pipeline proceeds to remote execution. -/
theorem sync_failure_semantics (args : Args) (w : World)
    (ps : List (String × String)) (bp : String)
    (hparse : parseCopyBack args.copy_back = Except.ok ps)
    (hmeta : w.metadataLaunchOk = true)
    (hbp : buildPath args.remote_path w.projectDir w.now = some bp) :
    (w.rsyncToResult = none →
      run args w = (Outcome.exit (-4), [Event.metadataQuery, Event.rsyncTo]))
    ∧ (∀ s, w.rsyncToResult = some s → Event.sshExec ∈ (run args w).2) := by
  constructor
  · intro hr
    simp [run, hparse, runAfterParse, hmeta, hbp, hr]
  · intro s hr
    cases hss : w.sshResult with
    | none =>
      simp [run, hparse, runAfterParse, hmeta, hbp, hr, hss]
    | some t =>
      have hrun : run args w = runRetrieval args w ps := by
        simp [run, hparse, runAfterParse, hmeta, hbp, hr, hss]
      rw [hrun]
      simp only [runRetrieval]
      split <;> simp

/-- C2 witness: the amended sync-failure semantics evaluated on a
launch-failure world and on an exit-status-23 world. -/
theorem sync_failure_semantics_witness :
    run argsD wRsyncLaunchFail = (Outcome.exit (-4), [Event.metadataQuery, Event.rsyncTo])
    ∧ Event.sshExec ∈ (run argsD wRsyncStatus23).2 :=
  ⟨(sync_failure_semantics argsD wRsyncLaunchFail [] "/home/u/proj" rfl rfl rfl).1 rfl,
   (sync_failure_semantics argsD wRsyncStatus23 [] "/home/u/proj" rfl rfl rfl).2 23 rfl⟩

/-- C3 counterexample: with the user-supplied exclusion list
containing only foo, the version-control directory .git is not among
the exclusion patterns, and does not occur anywhere in the rsync
argument vector. -/
theorem user_exclude_drops_git :
    ".git" ∉ excludePatterns ["foo"]
    ∧ ".git" ∉ rsyncToArgv 22 ["foo"] "/b" "/p" "crunch" := by
  decide

/-- C3 amended: the pattern sequence passed to the source transfer is
always the hardcoded target pattern followed by the user-visible
exclude list, in that order; the .git pattern is present only through
the default value of the exclude flag, which a user-supplied list
replaces. -/
theorem exclude_pattern_structure (user : List String) (port : Nat) (bp pd srv : String) :
    rsyncToArgv port user bp pd srv =
      ["-a", "--delete", "--compress", "-e", "ssh -p " ++ natDec port,
        "--info=progress2"]
        ++ excludeArgs (excludePatterns user)
        ++ ["--rsync-path", "mkdir -p " ++ bp ++ " && rsync", pd ++ "/",
            srv ++ ":" ++ bp]
    ∧ "target" ∈ excludePatterns user
    ∧ excludePatterns user = "target" :: user
    ∧ ".git" ∈ excludePatterns defaultExclude := by
  refine ⟨?_, ?_, rfl, by decide⟩
  · simp [rsyncToArgv, excludeArgs, excludePatterns]
  · simp [excludePatterns]

/-- C4: the composed remote command is exactly the fixed compiler
exports, the profile source, the cd to the resolved path, and the
build-env string followed by the cargo invocation with its arguments
joined by single spaces; a post-cargo command appends the marker and
the command behind a conjunction, and nothing is appended otherwise.
Includes the two concrete instances given in the specification. -/
theorem remote_command_composition :
    (∀ (es bp be : String) (cmd : List String),
      composedCommand es bp be cmd none =
        "export CC=gcc; export CXX=g++; source " ++ es ++ "; cd " ++ bp ++ "; "
          ++ be ++ " cargo " ++ String.intercalate " " cmd)
    ∧ (∀ (es bp be : String) (cmd : List String) (pc : String),
      composedCommand es bp be cmd (some pc) =
        composedCommand es bp be cmd none
          ++ " && echo Executing post-cargo command && " ++ pc)
    ∧ composedCommand "~/.profile" "/work/proj" "RUST_BACKTRACE=1"
        ["test", "--", "--nocapture"] none =
      "export CC=gcc; export CXX=g++; source ~/.profile; cd /work/proj; RUST_BACKTRACE=1 cargo test -- --nocapture"
    ∧ composedCommand "~/.profile" "/work/proj" "RUST_BACKTRACE=1"
        ["test", "--", "--nocapture"] (some "echo done") =
      "export CC=gcc; export CXX=g++; source ~/.profile; cd /work/proj; RUST_BACKTRACE=1 cargo test -- --nocapture && echo Executing post-cargo command && echo done" := by
  exact ⟨fun es bp be cmd => rfl, fun es bp be cmd pc => rfl, by decide, by decide⟩

/-- C5: the Persistent (unique) strategy is a pure deterministic
function of the project path: the resolved path does not depend on the
observed time, equals the home builds directory joined with the
directory name and the decimal rendering of the path hash, and the
hash is a 64-bit value. -/
theorem persistent_path_deterministic (p : String) (t1 t2 : Nat) (n : String)
    (h : fileName p = some n) :
    buildPath RemotePathBehavior.unique p t1 = buildPath RemotePathBehavior.unique p t2
    ∧ buildPath RemotePathBehavior.unique p t1 =
        some ("~/crunch-builds/" ++ n ++ "-" ++ natDec (uid_from_path p))
    ∧ uid_from_path p < 2 ^ 64 := by
  refine ⟨rfl, ?_, uid_lt p⟩
  simp [buildPath, h]

/-- C5 witness: the deterministic resolution evaluated on a concrete
project path at two different times. -/
theorem persistent_path_deterministic_witness :
    buildPath RemotePathBehavior.unique "/home/u/proj" 3
      = buildPath RemotePathBehavior.unique "/home/u/proj" 5
    ∧ buildPath RemotePathBehavior.unique "/home/u/proj" 3 =
        some ("~/crunch-builds/" ++ "proj" ++ "-" ++ natDec (uid_from_path "/home/u/proj"))
    ∧ uid_from_path "/home/u/proj" < 2 ^ 64 :=
  persistent_path_deterministic "/home/u/proj" 3 5 "proj" (by decide)

/-- C6 counterexample: the Ephemeral (tmp) strategy resolves under the
hardcoded /tmp directory, not under the configured base temp directory
of the remote target, which is ~/crunch-builds. -/
theorem tmp_path_ignores_configured_temp_dir :
    buildPath RemotePathBehavior.tmp "/home/u/proj" 42 = some "/tmp/crunch-proj-42"
    ∧ theRemote.temp_dir = "~/crunch-builds"
    ∧ buildPath RemotePathBehavior.tmp "/home/u/proj" 42
        ≠ some (theRemote.temp_dir ++ "/crunch-" ++ "proj" ++ "-" ++ natDec 42) := by
  decide

/-- C6 amended: the Ephemeral (tmp) strategy resolves to the string
/tmp/crunch- followed by the project directory name and the decimal
nanosecond timestamp, with /tmp hardcoded rather than taken from the
remote target configuration, whose temp directory is ~/crunch-builds. -/
theorem tmp_path_formula (p n : String) (t : Nat) (h : fileName p = some n) :
    buildPath RemotePathBehavior.tmp p t = some ("/tmp/crunch-" ++ n ++ "-" ++ natDec t)
    ∧ theRemote.temp_dir = "~/crunch-builds" :=
  ⟨by simp [buildPath, h], rfl⟩

/-- C6 witness: the tmp path formula evaluated on a concrete project
path and timestamp. -/
theorem tmp_path_formula_witness :
    buildPath RemotePathBehavior.tmp "/home/u/proj" 42
      = some ("/tmp/crunch-" ++ "proj" ++ "-" ++ natDec 42)
    ∧ theRemote.temp_dir = "~/crunch-builds" :=
  tmp_path_formula "/home/u/proj" "proj" 42 (by decide)

/-- C7 counterexample: two Ephemeral invocations that observe the same
nanosecond timestamp resolve to the identical path, so the resolution
itself guarantees no distinctness; nothing in the code makes the
observed timestamps differ. -/
theorem tmp_path_equal_timestamps_collide :
    buildPath RemotePathBehavior.tmp "/home/u/proj" 42 = some "/tmp/crunch-proj-42"
    ∧ ¬ buildPath RemotePathBehavior.tmp "/home/u/proj" 42
        ≠ buildPath RemotePathBehavior.tmp "/home/u/proj" 42 := by
  decide

/-- C7 amended: for the same project path, two Ephemeral resolutions
are distinct exactly when the observed nanosecond timestamps are
distinct; the code adds no collision avoidance beyond the timestamp. -/
theorem tmp_path_distinct_iff_timestamps (p n : String) (t1 t2 : Nat)
    (h : fileName p = some n) :
    buildPath RemotePathBehavior.tmp p t1 = buildPath RemotePathBehavior.tmp p t2
      ↔ t1 = t2 := by
  simp only [buildPath, h, Option.map_some', Option.some.injEq]
  constructor
  · intro heq
    exact natDec_inj (string_append_cancel_left ("/tmp/crunch-" ++ n ++ "-") _ _ heq)
  · intro heq
    rw [heq]

/-- C7 witness: the distinctness criterion evaluated at two concrete
distinct timestamps. -/
theorem tmp_path_distinct_iff_timestamps_witness :
    (buildPath RemotePathBehavior.tmp "/home/u/proj" 1
      = buildPath RemotePathBehavior.tmp "/home/u/proj" 2) ↔ (1 : Nat) = 2 :=
  tmp_path_distinct_iff_timestamps "/home/u/proj" "proj" 1 2 (by decide)

/-- C8: a copy-back entry without a colon makes the run end in the
panic of the configuration-parsing stage, with no subprocess invoked
at all: no metadata query, no transfer, no remote execution and no
retrieval, so the failure is never recorded as a retrieval failure. -/
theorem malformed_copy_back_aborts_before_remote (args : Args) (w : World) (e : String)
    (he : e ∈ args.copy_back) (hc : ∀ c ∈ e.data, c ≠ ':') :
    isPanic (run args w).1 = true ∧ (run args w).2 = [] := by
  have hpe : parseEntry e = none := by
    simp [parseEntry, splitFirst_of_no_colon hc]
  obtain ⟨m, hm⟩ := parseCopyBack_error he hpe
  constructor
  · simp [run, hm, isPanic]
  · simp [run, hm]

/-- C8 witness: the abort-before-remote property evaluated on a
concrete malformed entry. -/
theorem malformed_copy_back_aborts_before_remote_witness :
    isPanic (run argsBad wOk).1 = true ∧ (run argsBad wOk).2 = [] :=
  malformed_copy_back_aborts_before_remote argsBad wOk "nocolon" (by decide) (by decide)

/-- C9: with the earlier stages launched, one retrieval transfer is
attempted per copy-back pair in order, regardless of failures; the
aggregated failure list holds exactly the failing pair indices; and
the run exits with the retrieval-failure code -6 when any pair failed
and with zero otherwise. An empty pair list yields zero transfer
attempts. -/
theorem retrieval_aggregation (args : Args) (w : World) (ps : List (String × String))
    (bp : String) (r s : Nat)
    (hparse : parseCopyBack args.copy_back = Except.ok ps)
    (hmeta : w.metadataLaunchOk = true)
    (hbp : buildPath args.remote_path w.projectDir w.now = some bp)
    (hrs : w.rsyncToResult = some r)
    (hss : w.sshResult = some s) :
    (run args w).2.filter isRetrEvent = (List.range ps.length).map Event.rsyncBack
    ∧ (∀ i, i ∈ retrievalFailures ps.length w
        ↔ i < ps.length ∧ retrFail (w.retrResult i) = true)
    ∧ (run args w).1 =
        (if retrievalFailures ps.length w = [] then Outcome.exit 0
         else Outcome.exit (-6)) := by
  have hrun : run args w = runRetrieval args w ps := by
    simp [run, hparse, runAfterParse, hmeta, hbp, hrs, hss]
  refine ⟨?_, ?_, ?_⟩
  · rw [hrun, runRetrieval_events_filter]
  · intro i
    simp [retrievalFailures, List.mem_filter, List.mem_range]
  · rw [hrun, runRetrieval_outcome]

/-- C9 witness: the aggregation property evaluated on three concrete
pairs of which exactly the second fails. -/
theorem retrieval_aggregation_witness :
    (run argsCB wRetrMixed).2.filter isRetrEvent = (List.range 3).map Event.rsyncBack
    ∧ (1 ∈ retrievalFailures 3 wRetrMixed
        ↔ 1 < 3 ∧ retrFail (wRetrMixed.retrResult 1) = true)
    ∧ (run argsCB wRetrMixed).1 =
        (if retrievalFailures 3 wRetrMixed = [] then Outcome.exit 0
         else Outcome.exit (-6)) := by
  have h := retrieval_aggregation argsCB wRetrMixed
    [("a", "b"), ("c", "d"), ("e", "f")] "/home/u/proj" 0 0 rfl rfl rfl rfl rfl
  exact ⟨h.1, h.2.1 1, h.2.2⟩

/-- C10: copy-back parsing splits each entry at the first colon only:
for a source part without a colon, the entry made of that source, a
colon and any remainder parses into that source and the full
remainder, and such an entry is accepted without error; in particular
a colon inside the destination is kept and an empty destination is
allowed. -/
theorem copy_back_split_semantics (a b : String) (h : ∀ c ∈ a.data, c ≠ ':') :
    parseEntry (a ++ ":" ++ b) = some (a, b)
    ∧ parseCopyBack [a ++ ":" ++ b] = Except.ok [(a, b)]
    ∧ parseEntry "a:b:c" = some ("a", "b:c")
    ∧ parseEntry "a:" = some ("a", "") := by
  have hd : (a ++ ":" ++ b).data = a.data ++ ':' :: b.data := by
    simp [String.data_append]
  have h1 : parseEntry (a ++ ":" ++ b) = some (a, b) := by
    simp [parseEntry, hd, splitFirst_append b.data h, string_mk_data]
  refine ⟨h1, ?_, by decide, by decide⟩
  simp [parseCopyBack, h1]

/-- C10 witness: the first-colon split evaluated on a concrete entry
whose destination itself contains a colon. -/
theorem copy_back_split_semantics_witness :
    parseEntry ("a" ++ ":" ++ "b:c") = some ("a", "b:c")
    ∧ parseCopyBack ["a" ++ ":" ++ "b:c"] = Except.ok [("a", "b:c")]
    ∧ parseEntry "a:b:c" = some ("a", "b:c")
    ∧ parseEntry "a:" = some ("a", "") :=
  copy_back_split_semantics "a" "b:c" (by decide)

end Crunch
